import Mathlib

/-
Verification of the breadcrumbs OAuth2 token-lifecycle core.

The embedding models the token code of the repository:
  * `Auth` — the module exporting `fetchToken` and `getToken`
    (imported by index.js as "./auth.js");
  * `Main` — main.js, with its inlined `redirect`, `getToken` and
    `refreshToken`;
  * `Index` — index.js, whose `redirect` delegates to `Auth.fetchToken`.

Browser state is made explicit:
  * `Storage` is the localStorage slice the code touches: the three keys
    `access_token`, `refresh_token`, `expires_at`; `none` models an absent
    key (`getItem` returning `null`).
  * Network, navigation and DOM writes become an explicit `Effect` trace.
  * The single suspended `fetch` of each operation is modelled by passing
    the provider's `HttpResponse` as an argument; the code never inspects
    the status, so only the parsed JSON body flows into the state.

JavaScript value coercions are modelled explicitly on the domain the code
produces: `setItem` stringifies its argument (`undefined` becomes the
string "undefined", an integer becomes its decimal representation, and
`now + undefined` is `NaN`, stringified "NaN"); subtraction coerces a
string with `Number()` (`null` to 0, the empty string to 0, a canonical
optionally-signed decimal string to its value, anything else to NaN), and
any comparison against NaN is false.
-/

/-- One entry of a parsed query string / request body: key and value. -/
abbrev Param := String × String

/-- The localStorage slice owned by the token code: the three entries
`access_token`, `refresh_token`, `expires_at`. `none` models an absent
key, for which `getItem` returns `null`. -/
structure Storage where
  access_token : Option String
  refresh_token : Option String
  expires_at : Option String
  deriving DecidableEq, Repr

/-- The JSON body of a token-endpoint response as the code reads it:
each bracket access `token["field"]` yields `undefined` (`none`) when the
field is absent. -/
structure TokenResponse where
  access_token : Option String
  refresh_token : Option String
  expires_in : Option Int
  deriving DecidableEq, Repr

/-- A token-endpoint HTTP response: success flag (`response.ok`) and
parsed JSON body. The source never reads the flag. -/
structure HttpResponse where
  ok : Bool
  body : TokenResponse
  deriving DecidableEq, Repr

/-- Observable side effects of the token code: a token-endpoint POST
(with its form body, `none` when the code sends an undefined body), a
navigation (`window.location.href` assignment), and a DOM message write
(the redirect-message element). -/
inductive Effect where
  | netPost (body : Option (List Param))
  | navigate (url : String)
  | surfaceMsg (msg : String)
  deriving DecidableEq, Repr

/-- `home` constant of the source. -/
def home : String := "https://joshcanton6.github.io/breadcrumbs"

/-- `redirect_uri` constant of the source. -/
def redirect_uri : String := home ++ "/redirect"

/-- `client_id` constant of the source. -/
def client_id : String := "70d3f1361abf4e1ab9e9e64089fabc36"

/-- JS string coercion of a possibly-undefined string, as performed by
`setItem` and template literals: `undefined` becomes "undefined". -/
def jsStringOfUndef : Option String → String
  | some s => s
  | none => "undefined"

/-- JS string coercion of a possibly-null string, as performed by
`URLSearchParams` on a `getItem` result or a defaulted argument:
`null` becomes "null". -/
def jsStringOfNull : Option String → String
  | some s => s
  | none => "null"

/-- Decimal digits of `n`, most significant first, by fuel-bounded
division; models the digits of JS `String(n)` for a natural number. -/
def natDigits (fuel : Nat) (n : Nat) : List Char :=
  match fuel with
  | 0 => []
  | fuel + 1 =>
    if n < 10 then [Char.ofNat (48 + n)]
    else natDigits fuel (n / 10) ++ [Char.ofNat (48 + n % 10)]

/-- JS `String(n)` for an integer: decimal representation, with a leading
minus sign when negative. This models the implicit coercion `setItem`
applies to the number `now + expires_in`. -/
def intToString : Int → String
  | Int.ofNat n => String.mk (natDigits (n + 1) n)
  | Int.negSucc n => String.mk ('-' :: natDigits (n + 2) (n + 1))

/-- The string `setItem` stores for `now + token["expires_in"]`: the
decimal value when `expires_in` is present, "NaN" when it is absent
(`now + undefined` is `NaN`, stringified). -/
def jsStringOfExpiry (now : Int) : Option Int → String
  | some n => intToString (now + n)
  | none => "NaN"

/-- Accumulating decimal parser: consumes digit characters, fails on any
non-digit. Building block of the JS `Number()` model. -/
def parseDigits (acc : Nat) : List Char → Option Nat
  | [] => some acc
  | c :: cs =>
    if c.isDigit then parseDigits (acc * 10 + (c.toNat - 48)) cs else none

/-- JS `Number(s)` on the domain of strings this code stores or compares:
the empty string is 0, a canonical optionally-signed decimal string is
its value, and anything else (such as "NaN" or "undefined") is NaN,
modelled as `none`. -/
def jsStringToNumber (s : String) : Option Int :=
  match s.data with
  | [] => some 0
  | c :: cs =>
    if c = '-' then
      if cs = [] then none
      else (parseDigits 0 cs).map fun n => -(n : Int)
    else (parseDigits 0 (c :: cs)).map fun n => (n : Int)

/-- JS numeric coercion of a `getItem` result: `null` coerces to 0, a
string through `Number()`. `none` in the result models NaN. -/
def jsNumberOf : Option String → Option Int
  | none => some 0
  | some s => jsStringToNumber s

/-- The guard `getItem("expires_at") - now <= 0` of both `getToken`
variants, with JS coercion semantics: a NaN difference compares false. -/
def expired (expires_at : Option String) (now : Int) : Bool :=
  match jsNumberOf expires_at with
  | some n => decide (n - now ≤ 0)
  | none => false

/-- The three `setItem` lines shared by every exchange in the source:
store the coerced `access_token`, `refresh_token` and
`now + expires_in` of the parsed response body, replacing the whole
record. -/
def writeTokenResponse (now : Int) (token : TokenResponse) : Storage :=
  { access_token := some (jsStringOfUndef token.access_token)
    refresh_token := some (jsStringOfUndef token.refresh_token)
    expires_at := some (jsStringOfExpiry now token.expires_in) }

/-- `URLSearchParams.has`: is the key present. -/
def hasParam (ps : List Param) (k : String) : Bool :=
  ps.any fun p => p.1 = k

/-- `URLSearchParams.get`: first value for the key, `null` when absent. -/
def getParam (ps : List Param) (k : String) : Option String :=
  (ps.find? fun p => p.1 = k).map Prod.snd

/-- Split a character list on a separator; empty segments are kept
(building block of the query-string model). -/
def splitList (sep : Char) : List Char → List (List Char)
  | [] => [[]]
  | c :: rest =>
    let r := splitList sep rest
    if c = sep then [] :: r
    else
      match r with
      | [] => [[c]]
      | g :: gs => (c :: g) :: gs

/-- Split one query component at its first '=' into key and value; a
component without '=' has the empty value. -/
def splitKV : List Char → List Char × List Char
  | [] => ([], [])
  | c :: rest =>
    if c = '=' then ([], rest)
    else
      let r := splitKV rest
      (c :: r.1, r.2)

/-- `new URLSearchParams(search)` on an undecorated query string (no
percent-escapes, as in every URL this flow produces): drop a leading
'?', split on '&', split each component at its first '='. -/
def parseQuery (s : String) : List Param :=
  let cs :=
    match s.data with
    | '?' :: rest => rest
    | other => other
  match cs with
  | [] => []
  | _ => (splitList '&' cs).map fun kv =>
      (String.mk (splitKV kv).1, String.mk (splitKV kv).2)

namespace Auth

/-- `fetchToken(grant_type, code)` of the auth module: builds the form
body for the two known grant types (the body stays `undefined` for any
other), POSTs it, parses the JSON body without inspecting the status,
and overwrites the three stored entries with the coerced response
fields. The suspended `fetch` result is the `resp` argument. -/
def fetchToken (grant_type : String) (code : Option String) (now : Int)
    (resp : HttpResponse) (st : Storage) : Storage × List Effect :=
  let body : Option (List Param) :=
    if grant_type = "authorization_code" then
      some [("grant_type", grant_type), ("code", jsStringOfNull code),
        ("redirect_uri", redirect_uri)]
    else if grant_type = "refresh_token" then
      some [("grant_type", grant_type),
        ("refresh_token", jsStringOfNull st.refresh_token),
        ("client_id", client_id)]
    else none
  (writeTokenResponse now resp.body, [Effect.netPost body])

/-- `getToken()` of the auth module: refresh through
`fetchToken("refresh_token")` when the expiry guard fires, then return
the stored `access_token`. -/
def getToken (now : Int) (resp : HttpResponse) (st : Storage) :
    Option String × Storage × List Effect :=
  if expired st.expires_at now then
    let r := fetchToken "refresh_token" none now resp st
    (r.1.access_token, r.1, r.2)
  else
    (st.access_token, st, [])

end Auth

namespace Main

/-- `refreshToken()` of main.js: POST the refresh body (with the stored
refresh token, `null`-coerced when absent) and overwrite the three
stored entries with the coerced response fields, without inspecting the
response status. -/
def refreshToken (now : Int) (resp : HttpResponse) (st : Storage) :
    Storage × List Effect :=
  (writeTokenResponse now resp.body,
   [Effect.netPost (some [("grant_type", "refresh_token"),
     ("refresh_token", jsStringOfNull st.refresh_token),
     ("client_id", client_id)])])

/-- `getToken()` of main.js: refresh when the expiry guard fires, then
return the stored `access_token`. -/
def getToken (now : Int) (resp : HttpResponse) (st : Storage) :
    Option String × Storage × List Effect :=
  if expired st.expires_at now then
    let r := refreshToken now resp st
    (r.1.access_token, r.1, r.2)
  else
    (st.access_token, st, [])

/-- `redirect()` of main.js: two independent `if` statements — an
`error` parameter writes the message to the DOM, and a `code` parameter
(checked afterwards, not as an `else`) performs the code exchange,
stores the coerced response fields and navigates to the app page. With
neither parameter nothing happens. -/
def redirect (ps : List Param) (now : Int) (resp : HttpResponse)
    (st : Storage) : Storage × List Effect :=
  let errEffs : List Effect :=
    if hasParam ps "error" then
      [Effect.surfaceMsg ("Error: " ++ jsStringOfNull (getParam ps "error"))]
    else []
  if hasParam ps "code" then
    (writeTokenResponse now resp.body,
     errEffs ++
       [Effect.netPost (some [("grant_type", "authorization_code"),
          ("code", jsStringOfNull (getParam ps "code")),
          ("redirect_uri", redirect_uri)]),
        Effect.navigate (home ++ "/app")])
  else
    (st, errEffs)

end Main

namespace Index

/-- `redirect()` of index.js: an `if`/`else if`/`else` chain — a `code`
parameter is exchanged through `Auth.fetchToken` and the browser
navigates to the app page; otherwise an `error` parameter is written to
the DOM; otherwise the browser navigates to the landing page. -/
def redirect (ps : List Param) (now : Int) (resp : HttpResponse)
    (st : Storage) : Storage × List Effect :=
  if hasParam ps "code" then
    let r := Auth.fetchToken "authorization_code" (getParam ps "code") now resp st
    (r.1, r.2 ++ [Effect.navigate (home ++ "/app")])
  else if hasParam ps "error" then
    (st, [Effect.surfaceMsg ("Error: " ++ jsStringOfNull (getParam ps "error"))])
  else
    (st, [Effect.navigate home])

end Index

/-- Recognizer for token-endpoint POST effects. -/
def isNetPost : Effect → Bool
  | Effect.netPost _ => true
  | _ => false

/-- Number of network calls in an effect trace. -/
def netCalls (effs : List Effect) : Nat :=
  (effs.filter isNetPost).length

/-- Appending one character to the parser input performs one more
accumulator step. -/
theorem parseDigits_append (xs : List Char) (c : Char) (acc : Nat) :
    parseDigits acc (xs ++ [c])
      = (parseDigits acc xs).bind fun m =>
          if c.isDigit then some (m * 10 + (c.toNat - 48)) else none := by
  induction xs generalizing acc with
  | nil => simp [parseDigits]
  | cons x xs ih =>
    by_cases hx : x.isDigit
    · simp [parseDigits, hx, ih]
    · simp [parseDigits, hx]

/-- The character of a decimal digit is a digit character. -/
theorem digitChar_isDigit (d : Nat) (h : d < 10) :
    (Char.ofNat (48 + d)).isDigit = true := by
  interval_cases d <;> decide

/-- Numeric value of the character of a decimal digit. -/
theorem digitChar_toNat (d : Nat) (h : d < 10) :
    (Char.ofNat (48 + d)).toNat = 48 + d := by
  interval_cases d <;> decide

/-- With positive fuel the digit list is never empty. -/
theorem natDigits_ne_nil (fuel n : Nat) (h : 0 < fuel) :
    natDigits fuel n ≠ [] := by
  match fuel with
  | fuel + 1 =>
    by_cases hn : n < 10
    · simp [natDigits, hn]
    · simp [natDigits, hn]

/-- The leading character of a digit list is a digit character. -/
theorem natDigits_head_isDigit (fuel : Nat) :
    ∀ n c cs, natDigits fuel n = c :: cs → c.isDigit = true := by
  induction fuel with
  | zero => intro n c cs h; simp [natDigits] at h
  | succ fuel ih =>
    intro n c cs h
    by_cases hn : n < 10
    · simp [natDigits, hn] at h
      rw [← h.1]
      exact digitChar_isDigit n hn
    · simp only [natDigits, if_neg hn] at h
      cases hrec : natDigits fuel (n / 10) with
      | nil =>
        rw [hrec] at h
        simp at h
        rw [← h.1]
        exact digitChar_isDigit (n % 10) (Nat.mod_lt n (by omega))
      | cons c0 cs0 =>
        rw [hrec] at h
        simp at h
        rw [← h.1]
        exact ih (n / 10) c0 cs0 hrec

/-- Parsing the digit list of `n` recovers `n`, given enough fuel. -/
theorem parseDigits_natDigits (fuel : Nat) :
    ∀ n, n < 10 ^ fuel → parseDigits 0 (natDigits fuel n) = some n := by
  induction fuel with
  | zero =>
    intro n h
    simp at h
    simp [h, natDigits, parseDigits]
  | succ fuel ih =>
    intro n h
    by_cases hn : n < 10
    · have hd := digitChar_isDigit n hn
      have ht := digitChar_toNat n hn
      simp [natDigits, hn, parseDigits, hd, ht]
    · have hdiv : n / 10 < 10 ^ fuel := by
        rw [pow_succ] at h
        omega
      have hd := digitChar_isDigit (n % 10) (Nat.mod_lt n (by omega))
      have ht := digitChar_toNat (n % 10) (Nat.mod_lt n (by omega))
      simp only [natDigits, if_neg hn]
      rw [parseDigits_append, ih (n / 10) hdiv]
      simp [hd, ht]
      omega

/-- A digit character is not the minus sign. -/
theorem ne_minus_of_isDigit (c : Char) (h : c.isDigit = true) : ¬ c = '-' := by
  intro hc
  rw [hc] at h
  exact absurd h (by decide)

/-- The JS number-to-string and string-to-number coercions round-trip on
integers: parsing the stored decimal representation recovers the value. -/
theorem jsStringToNumber_intToString (i : Int) :
    jsStringToNumber (intToString i) = some i := by
  cases i with
  | ofNat n =>
    have hne := natDigits_ne_nil (n + 1) n (by omega)
    obtain ⟨c, cs, hshape⟩ : ∃ c cs, natDigits (n + 1) n = c :: cs := by
      cases h : natDigits (n + 1) n with
      | nil => exact absurd h hne
      | cons c cs => exact ⟨c, cs, rfl⟩
    have hdig := natDigits_head_isDigit (n + 1) n c cs hshape
    have hpow : n < 10 ^ (n + 1) :=
      lt_of_lt_of_le (Nat.lt_pow_self (by norm_num) n)
        (Nat.pow_le_pow_right (by norm_num) (Nat.le_succ n))
    have hparse := parseDigits_natDigits (n + 1) n hpow
    rw [hshape] at hparse
    simp only [intToString, jsStringToNumber, hshape]
    rw [if_neg (ne_minus_of_isDigit c hdig), hparse]
    rfl
  | negSucc m =>
    have hne := natDigits_ne_nil (m + 2) (m + 1) (by omega)
    have hpow : m + 1 < 10 ^ (m + 2) :=
      lt_of_lt_of_le (Nat.lt_pow_self (by norm_num) (m + 1))
        (Nat.pow_le_pow_right (by norm_num) (by omega))
    have hparse := parseDigits_natDigits (m + 2) (m + 1) hpow
    simp [intToString, jsStringToNumber, hne, hparse, Int.negSucc_eq]

/-- A key whose lookup succeeds is present. -/
theorem hasParam_of_getParam (ps : List Param) (k v : String)
    (h : getParam ps k = some v) : hasParam ps k = true := by
  unfold getParam at h
  cases hf : List.find? (fun p => p.1 = k) ps with
  | none => rw [hf] at h; simp at h
  | some q =>
    have hm := List.mem_of_find?_eq_some hf
    have hp := List.find?_some hf
    exact List.any_eq_true.mpr ⟨q, hm, hp⟩

/-- Claim C1 counterexample: with no Credential Record stored (all three
keys absent) `getToken()` at clock 1700000000 performs a network call —
the absent `expires_at` reads as `null`, coerces to 0, and fires the
expiry guard, so a refresh POST is sent. The claimed behavior (fail with
an authentication error, no network call) does not occur: the source has
no authentication check and no error of any kind on this path. -/
theorem c1_counterexample :
    netCalls (Auth.getToken 1700000000 ⟨false, ⟨none, none, none⟩⟩
      ⟨none, none, none⟩).2.2 ≠ 0 := by decide

/-- Claim C1 (amended): with no stored Credential Record and a
non-negative clock, `getToken()` does not fail at all: it performs
exactly one network call — a refresh exchange whose body carries the
null-coerced stored refresh token — overwrites the record with the
coerced response fields, and returns the access token that refresh
stored. -/
theorem c1_amended (now : Int) (resp : HttpResponse) (h : 0 ≤ now) :
    Auth.getToken now resp ⟨none, none, none⟩
      = (some (jsStringOfUndef resp.body.access_token),
         writeTokenResponse now resp.body,
         [Effect.netPost (some [("grant_type", "refresh_token"),
           ("refresh_token", "null"), ("client_id", client_id)])]) := by
  have hx : expired (none : Option String) now = true := by
    simp [expired, jsNumberOf]
    omega
  simp [Auth.getToken, hx, Auth.fetchToken, jsStringOfNull, writeTokenResponse]

/-- Witness for C1 (amended) at clock 1700000000 and an empty error
response body. -/
theorem c1_amended_witness :
    Auth.getToken 1700000000 ⟨false, ⟨none, none, none⟩⟩ ⟨none, none, none⟩
      = (some "undefined", ⟨some "undefined", some "undefined", some "NaN"⟩,
         [Effect.netPost (some [("grant_type", "refresh_token"),
           ("refresh_token", "null"), ("client_id", client_id)])]) :=
  c1_amended 1700000000 ⟨false, ⟨none, none, none⟩⟩ (by decide)

/-- Claim C2 counterexample: a refresh against a non-success response
(status not ok, error body without token fields) does not leave the
stored record ⟨"OLDACCESS", "OLDREFRESH", "1111"⟩ intact — the code
never checks the status and overwrites all three entries with the
coerced missing fields. No refresh error exists in the source. -/
theorem c2_counterexample :
    (Main.refreshToken 2000 ⟨false, ⟨none, none, none⟩⟩
      ⟨some "OLDACCESS", some "OLDREFRESH", some "1111"⟩).1
      ≠ ⟨some "OLDACCESS", some "OLDREFRESH", some "1111"⟩ := by decide

/-- Claim C2 (amended): on a refresh response with non-success status
and no token fields in the body, `refreshToken()` raises no error,
performs its single POST, and overwrites the whole record with the
JS-coerced absent fields: both tokens become the string "undefined" and
`expires_at` becomes "NaN". -/
theorem c2_amended (now : Int) (resp : HttpResponse) (st : Storage)
    (_hok : resp.ok = false) (ha : resp.body.access_token = none)
    (hr : resp.body.refresh_token = none) (he : resp.body.expires_in = none) :
    (Main.refreshToken now resp st).1
      = ⟨some "undefined", some "undefined", some "NaN"⟩ ∧
    netCalls (Main.refreshToken now resp st).2 = 1 := by
  constructor
  · simp [Main.refreshToken, writeTokenResponse, ha, hr, he,
      jsStringOfUndef, jsStringOfExpiry]
  · rfl

/-- Witness for C2 (amended) at a concrete record and failed response. -/
theorem c2_amended_witness :
    (Main.refreshToken 2500 ⟨false, ⟨none, none, none⟩⟩
      ⟨some "A0", some "R0", some "1111"⟩).1
      = ⟨some "undefined", some "undefined", some "NaN"⟩ ∧
    netCalls (Main.refreshToken 2500 ⟨false, ⟨none, none, none⟩⟩
      ⟨some "A0", some "R0", some "1111"⟩).2 = 1 :=
  c2_amended 2500 ⟨false, ⟨none, none, none⟩⟩
    ⟨some "A0", some "R0", some "1111"⟩ rfl rfl rfl rfl

/-- Claim C3 counterexample: when the refresh response omits
`refresh_token`, the stored refresh token is not retained — the prior
value "oldrefresh" is replaced. -/
theorem c3_counterexample :
    (Main.refreshToken 1000 ⟨true, ⟨some "newacc", none, some 3600⟩⟩
      ⟨some "oldacc", some "oldrefresh", some "500"⟩).1.refresh_token
      ≠ some "oldrefresh" := by decide

/-- Claim C3 (amended): when the refresh response omits `refresh_token`,
the stored `refresh_token` is set to the string "undefined" (the setItem
coercion of the absent field), regardless of its prior value. -/
theorem c3_amended (now : Int) (resp : HttpResponse) (st : Storage)
    (h : resp.body.refresh_token = none) :
    (Main.refreshToken now resp st).1.refresh_token = some "undefined" := by
  simp [Main.refreshToken, writeTokenResponse, h, jsStringOfUndef]

/-- Witness for C3 (amended) at a response retaining a fresh access
token but omitting the refresh token. -/
theorem c3_amended_witness :
    (Main.refreshToken 1200 ⟨true, ⟨some "newacc2", none, some 3600⟩⟩
      ⟨some "oldacc2", some "oldrefresh2", some "600"⟩).1.refresh_token
      = some "undefined" :=
  c3_amended 1200 ⟨true, ⟨some "newacc2", none, some 3600⟩⟩
    ⟨some "oldacc2", some "oldrefresh2", some "600"⟩ rfl

/-- Claim C4 (confirmed), for the canonical index.js redirect handler:
with `code=abc123` present the handler performs exactly one
token-endpoint POST carrying `grant_type=authorization_code` and
`code=abc123`; with only `error=access_denied` it performs zero network
calls and surfaces the error value; with neither parameter it performs
zero network calls and navigates to the landing page. -/
theorem c4_redirect_dispatch (ps : List Param) (now : Int)
    (resp : HttpResponse) (st : Storage) :
    (getParam ps "code" = some "abc123" →
      (Index.redirect ps now resp st).2.filter isNetPost
        = [Effect.netPost (some [("grant_type", "authorization_code"),
            ("code", "abc123"), ("redirect_uri", redirect_uri)])]) ∧
    (hasParam ps "code" = false → getParam ps "error" = some "access_denied" →
      (Index.redirect ps now resp st).2
        = [Effect.surfaceMsg "Error: access_denied"]) ∧
    (hasParam ps "code" = false → hasParam ps "error" = false →
      (Index.redirect ps now resp st).2 = [Effect.navigate home]) := by
  refine ⟨fun hc => ?_, fun hnc he => ?_, fun hnc hne => ?_⟩
  · have hhc := hasParam_of_getParam ps "code" "abc123" hc
    simp [Index.redirect, hhc, hc, Auth.fetchToken, jsStringOfNull,
      List.filter, isNetPost]
  · have hhe := hasParam_of_getParam ps "error" "access_denied" he
    simp [Index.redirect, hnc, hhe, he, jsStringOfNull]
  · simp [Index.redirect, hnc, hne]

/-- Witness for C4 on three concrete redirect URLs, one per branch. -/
theorem c4_witness :
    (Index.redirect (parseQuery "?code=abc123") 0
        ⟨true, ⟨some "AT", some "RT", some 3600⟩⟩ ⟨none, none, none⟩).2.filter isNetPost
      = [Effect.netPost (some [("grant_type", "authorization_code"),
          ("code", "abc123"), ("redirect_uri", redirect_uri)])] ∧
    (Index.redirect (parseQuery "?error=access_denied") 0
        ⟨true, ⟨some "AT", some "RT", some 3600⟩⟩ ⟨none, none, none⟩).2
      = [Effect.surfaceMsg "Error: access_denied"] ∧
    (Index.redirect (parseQuery "?state=xyz") 0
        ⟨true, ⟨some "AT", some "RT", some 3600⟩⟩ ⟨none, none, none⟩).2
      = [Effect.navigate home] :=
  ⟨(c4_redirect_dispatch (parseQuery "?code=abc123") 0
      ⟨true, ⟨some "AT", some "RT", some 3600⟩⟩ ⟨none, none, none⟩).1 (by decide),
   (c4_redirect_dispatch (parseQuery "?error=access_denied") 0
      ⟨true, ⟨some "AT", some "RT", some 3600⟩⟩ ⟨none, none, none⟩).2.1
      (by decide) (by decide),
   (c4_redirect_dispatch (parseQuery "?state=xyz") 0
      ⟨true, ⟨some "AT", some "RT", some 3600⟩⟩ ⟨none, none, none⟩).2.2
      (by decide) (by decide)⟩

/-- Claim C5 counterexample: an authorization-code exchange against a
non-success response with a body lacking the access and refresh tokens
does not fail — the source has no exchange error and never inspects the
status — it completes, sends its POST, surfaces nothing, and overwrites
the record with the coerced fields (both tokens "undefined", the expiry
derived from the error body's stray `expires_in`). -/
theorem c5_counterexample :
    Auth.fetchToken "authorization_code" (some "badcode") 1000
      ⟨false, ⟨none, none, some 3600⟩⟩ ⟨some "a", some "r", some "99"⟩
      = (⟨some "undefined", some "undefined", some "4600"⟩,
         [Effect.netPost (some [("grant_type", "authorization_code"),
           ("code", "badcode"), ("redirect_uri", redirect_uri)])]) := by decide

/-- Claim C5 (amended): `fetchToken` never fails: for any grant type,
any response status and any body, it performs its single POST and
replaces the stored record with the coerced response fields, surfacing
no error to the caller. -/
theorem c5_amended (grant_type : String) (code : Option String) (now : Int)
    (resp : HttpResponse) (st : Storage) (_hok : resp.ok = false) :
    (Auth.fetchToken grant_type code now resp st).1
      = writeTokenResponse now resp.body ∧
    netCalls (Auth.fetchToken grant_type code now resp st).2 = 1 :=
  ⟨rfl, rfl⟩

/-- Witness for C5 (amended) at a concrete failed exchange. -/
theorem c5_amended_witness :
    (Auth.fetchToken "authorization_code" (some "expiredcode") 1000
      ⟨false, ⟨none, none, none⟩⟩ ⟨none, none, none⟩).1
      = writeTokenResponse 1000 ⟨none, none, none⟩ ∧
    netCalls (Auth.fetchToken "authorization_code" (some "expiredcode") 1000
      ⟨false, ⟨none, none, none⟩⟩ ⟨none, none, none⟩).2 = 1 :=
  c5_amended "authorization_code" (some "expiredcode") 1000
    ⟨false, ⟨none, none, none⟩⟩ ⟨none, none, none⟩ rfl

/-- Claim C6 (confirmed): for a fully populated stored record whose
`expires_at` value is at or before the clock (non-strict comparison),
`getToken()` performs exactly one refresh exchange and returns exactly
the access token that refresh stored. -/
theorem c6_expiry_triggers_refresh (e now : Int) (a r : String)
    (resp : HttpResponse) (hle : e ≤ now) :
    Main.getToken now resp ⟨some a, some r, some (intToString e)⟩
      = (some (jsStringOfUndef resp.body.access_token),
         writeTokenResponse now resp.body,
         [Effect.netPost (some [("grant_type", "refresh_token"),
           ("refresh_token", r), ("client_id", client_id)])]) := by
  have hx : expired (some (intToString e)) now = true := by
    simp [expired, jsNumberOf, jsStringToNumber_intToString]
    omega
  simp [Main.getToken, hx, Main.refreshToken, jsStringOfNull, writeTokenResponse]

/-- Witness for C6: a record expired at 500, queried at 1000, refreshed
from a successful response. Exercises the boundary-inclusive guard
through a strictly past expiry. -/
theorem c6_witness :
    Main.getToken 1000 ⟨true, ⟨some "NEWACCESS", some "NEWREFRESH", some 3600⟩⟩
      ⟨some "A", some "R", some (intToString 500)⟩
      = (some "NEWACCESS",
         ⟨some "NEWACCESS", some "NEWREFRESH", some (intToString 4600)⟩,
         [Effect.netPost (some [("grant_type", "refresh_token"),
           ("refresh_token", "R"), ("client_id", client_id)])]) :=
  c6_expiry_triggers_refresh 500 1000 "A" "R"
    ⟨true, ⟨some "NEWACCESS", some "NEWREFRESH", some 3600⟩⟩ (by omega)

/-- Claim C7 (confirmed): storing a record through a successful code
exchange with lifetime `n` at time `t0`, then asking for a token at any
`now` before `t0 + n`, returns the stored access token with the storage
untouched and zero network calls. -/
theorem c7_round_trip (c a r : String) (n t0 now : Int)
    (resp resp2 : HttpResponse) (st0 : Storage)
    (hbody : resp.body = ⟨some a, some r, some n⟩) (hfresh : now < t0 + n) :
    Auth.getToken now resp2
      (Auth.fetchToken "authorization_code" (some c) t0 resp st0).1
      = (some a,
         (Auth.fetchToken "authorization_code" (some c) t0 resp st0).1, []) := by
  have hst : (Auth.fetchToken "authorization_code" (some c) t0 resp st0).1
      = ⟨some a, some r, some (intToString (t0 + n))⟩ := by
    simp [Auth.fetchToken, writeTokenResponse, hbody,
      jsStringOfUndef, jsStringOfExpiry]
  have hx : expired (some (intToString (t0 + n))) now = false := by
    simp [expired, jsNumberOf, jsStringToNumber_intToString]
    omega
  rw [hst]
  simp [Auth.getToken, hx]

/-- Witness for C7: exchange at 100 with a one-hour lifetime, token
requested at 200. -/
theorem c7_witness :
    Auth.getToken 200 ⟨false, ⟨none, none, none⟩⟩
      (Auth.fetchToken "authorization_code" (some "abc123") 100
        ⟨true, ⟨some "AT", some "RT", some 3600⟩⟩ ⟨none, none, none⟩).1
      = (some "AT",
         (Auth.fetchToken "authorization_code" (some "abc123") 100
           ⟨true, ⟨some "AT", some "RT", some 3600⟩⟩ ⟨none, none, none⟩).1,
         []) :=
  c7_round_trip "abc123" "AT" "RT" 3600 100 200
    ⟨true, ⟨some "AT", some "RT", some 3600⟩⟩ ⟨false, ⟨none, none, none⟩⟩
    ⟨none, none, none⟩ rfl (by omega)

/-- Claim C8 (confirmed): every successful storing exchange (code
exchange via `fetchToken`, or `refreshToken`) with fresh values `a`, `r`
and lifetime `n` replaces the whole record in one step: both tokens take
the new values and `expires_at` becomes the clock plus the lifetime,
with no dependence on the prior record. -/
theorem c8_atomic_replacement (grant_type : String) (code : Option String)
    (a r : String) (n now : Int) (resp : HttpResponse) (st st2 : Storage)
    (hbody : resp.body = ⟨some a, some r, some n⟩) :
    (Auth.fetchToken grant_type code now resp st).1
      = ⟨some a, some r, some (intToString (now + n))⟩ ∧
    (Main.refreshToken now resp st2).1
      = ⟨some a, some r, some (intToString (now + n))⟩ := by
  constructor <;>
    simp [Auth.fetchToken, Main.refreshToken, writeTokenResponse, hbody,
      jsStringOfUndef, jsStringOfExpiry]

/-- Witness for C8 at a concrete successful response over two different
prior records. -/
theorem c8_witness :
    (Auth.fetchToken "authorization_code" (some "xyz") 700
      ⟨true, ⟨some "NA", some "NR", some 60⟩⟩ ⟨some "a1", some "r1", some "5"⟩).1
      = ⟨some "NA", some "NR", some (intToString 760)⟩ ∧
    (Main.refreshToken 700 ⟨true, ⟨some "NA", some "NR", some 60⟩⟩
      ⟨none, none, none⟩).1
      = ⟨some "NA", some "NR", some (intToString 760)⟩ :=
  c8_atomic_replacement "authorization_code" (some "xyz") "NA" "NR" 60 700
    ⟨true, ⟨some "NA", some "NR", some 60⟩⟩
    ⟨some "a1", some "r1", some "5"⟩ ⟨none, none, none⟩ rfl

/-- Claim C9 (confirmed): on a redirect URL carrying both an `error` and
a `code` parameter, the main.js handler surfaces the error message and
still performs the code exchange, stores the coerced response fields and
navigates to the app page (its two `if` statements are independent),
while the index.js handler runs only the code branch and surfaces
nothing. -/
theorem c9_both_params (ps : List Param) (e c : String) (now : Int)
    (resp : HttpResponse) (st : Storage)
    (he : getParam ps "error" = some e) (hc : getParam ps "code" = some c) :
    Main.redirect ps now resp st
      = (writeTokenResponse now resp.body,
         [Effect.surfaceMsg ("Error: " ++ e),
          Effect.netPost (some [("grant_type", "authorization_code"),
            ("code", c), ("redirect_uri", redirect_uri)]),
          Effect.navigate (home ++ "/app")]) ∧
    Index.redirect ps now resp st
      = (writeTokenResponse now resp.body,
         [Effect.netPost (some [("grant_type", "authorization_code"),
            ("code", c), ("redirect_uri", redirect_uri)]),
          Effect.navigate (home ++ "/app")]) := by
  have hhe := hasParam_of_getParam ps "error" e he
  have hhc := hasParam_of_getParam ps "code" c hc
  constructor
  · simp [Main.redirect, hhe, hhc, he, hc, jsStringOfNull]
  · simp [Index.redirect, hhc, hc, Auth.fetchToken, jsStringOfNull]

/-- Witness for C9 on the URL query carrying both parameters. -/
theorem c9_witness :
    Main.redirect (parseQuery "?error=access_denied&code=abc123") 50
      ⟨true, ⟨some "AT", some "RT", some 3600⟩⟩ ⟨none, none, none⟩
      = (writeTokenResponse 50 ⟨some "AT", some "RT", some 3600⟩,
         [Effect.surfaceMsg ("Error: " ++ "access_denied"),
          Effect.netPost (some [("grant_type", "authorization_code"),
            ("code", "abc123"), ("redirect_uri", redirect_uri)]),
          Effect.navigate (home ++ "/app")]) ∧
    Index.redirect (parseQuery "?error=access_denied&code=abc123") 50
      ⟨true, ⟨some "AT", some "RT", some 3600⟩⟩ ⟨none, none, none⟩
      = (writeTokenResponse 50 ⟨some "AT", some "RT", some 3600⟩,
         [Effect.netPost (some [("grant_type", "authorization_code"),
            ("code", "abc123"), ("redirect_uri", redirect_uri)]),
          Effect.navigate (home ++ "/app")]) :=
  c9_both_params (parseQuery "?error=access_denied&code=abc123")
    "access_denied" "abc123" 50 ⟨true, ⟨some "AT", some "RT", some 3600⟩⟩
    ⟨none, none, none⟩ (by decide) (by decide)

/-- Claim C10 (confirmed): for any grant type other than
"authorization_code" and "refresh_token", `fetchToken` still performs
the token-endpoint POST — with the body left `undefined` — and still
replaces all three stored entries with the coerced response fields;
nothing rejects the unknown grant type. -/
theorem c10_unknown_grant (grant_type : String) (code : Option String)
    (now : Int) (resp : HttpResponse) (st : Storage)
    (h1 : grant_type ≠ "authorization_code")
    (h2 : grant_type ≠ "refresh_token") :
    Auth.fetchToken grant_type code now resp st
      = (writeTokenResponse now resp.body, [Effect.netPost none]) := by
  simp [Auth.fetchToken, h1, h2]

/-- Witness for C10 at the unknown grant type "client_credentials". -/
theorem c10_witness :
    Auth.fetchToken "client_credentials" none 1000
      ⟨true, ⟨some "AT", some "RT", some 3600⟩⟩ ⟨none, none, none⟩
      = (writeTokenResponse 1000 ⟨some "AT", some "RT", some 3600⟩,
         [Effect.netPost none]) :=
  c10_unknown_grant "client_credentials" none 1000
    ⟨true, ⟨some "AT", some "RT", some 3600⟩⟩ ⟨none, none, none⟩
    (by decide) (by decide)
